import Mathlib

/-!
Shallow embedding of the whisper-dictation recording controller
(`src/main.py`, class `WhisperDictationApp`).

The app's mutable attributes become fields of `AppState`; each method of
the class becomes a function `AppState → AppState` (or returns extra
observations such as the file-operation trace of `transcribe_audio`).
Thread dispatch is modelled by flags: `transcribing` records that a
`process_recording` worker is in flight (set when `stop_recording` starts
the thread, cleared when `process_recording` finishes).  The fine-grained
interleaving of the audio capture thread with `stop_recording` is modelled
separately by `CapSys` below.
-/

namespace WhisperDictation

/-- An abstract PCM chunk, one `stream.read(self.chunk)` result. -/
abbrev Frame := Nat

/-- The spec's controller phases.  The source has no such enum; the phase is
derived from the flags: `Recording` iff `self.recording`, `Transcribing` iff
a `process_recording` worker is in flight, else `Idle`. -/
inductive Phase
  | Idle
  | Recording
  | Transcribing
deriving DecidableEq, Repr

/-- The mutable attributes of `WhisperDictationApp` that the claims touch.
`model_loaded` stands for `self.model is not None`; `status_item` for
`self.status_item.title`; `is_recording_with_key63` is the toggle flag set
in `monitor_keys`; `transcribing` abstracts a live `process_recording`
thread; `clipboard`/`pasted` abstract the pbcopy + Cmd-V side effects of
`insert_text`; `audio_terminated`/`quit_called` abstract
`self.audio.terminate()` and `rumps.quit_application()`. -/
structure AppState where
  model_loaded : Bool
  recording : Bool
  transcribing : Bool
  is_recording_with_key63 : Bool
  frames : List Frame
  status_item : String
  title : String
  clipboard : String
  pasted : List String
  audio_terminated : Bool
  quit_called : Bool
deriving DecidableEq, Repr

/-- Derived phase of the controller (see `Phase`). -/
def AppState.phase (s : AppState) : Phase :=
  if s.recording = true then Phase.Recording
  else if s.transcribing = true then Phase.Transcribing
  else Phase.Idle

/-- `self.trigger_key = 63`: the Globe/Fn key. -/
def trigger_key : Nat := 63

/-- A pynput key event as consumed by the handlers: `vk` is `key.vk` when
the key has one (`hasattr(key, 'vk')`), and `special` says whether the key
is one of `[Key.f12, Key.f13, Key.f17, Key.f18, Key.cmd, Key.space]`. -/
structure KeyEvent where
  vk : Option Nat
  special : Bool
deriving DecidableEq, Repr

/-- `start_recording`: if the model is not loaded, set the waiting status
and return with nothing else changed; otherwise clear the frame buffer,
set the recording flag, update title and status, and spawn the
`record_audio` thread (the thread's behaviour is modelled separately). -/
def start_recording (s : AppState) : AppState :=
  if s.model_loaded = false then
    { s with status_item := "Status: Waiting for model to load" }
  else
    { s with frames := [],
             recording := true,
             title := "🎙️ (Recording)",
             status_item := "Status: Recording..." }

/-- `stop_recording`: clear the recording flag, join the capture thread
(the join itself is modelled in `CapSys`), update title and status, and
spawn the `process_recording` worker (`transcribing := true`). -/
def stop_recording (s : AppState) : AppState :=
  { s with recording := false,
           title := "🎙️ (Transcribing)",
           status_item := "Status: Transcribing...",
           transcribing := true }

/-- `on_press` from `monitor_keys`: an alternate key with `vk` 49 (Space)
or 55 (Command) starts recording when not already recording and the key is
not the trigger key; then the special-key list (`Key.f12`, `Key.f13`,
`Key.f17`, `Key.f18`, `Key.cmd`, `Key.space`) starts recording when not
already recording. -/
def on_press (k : KeyEvent) (s : AppState) : AppState :=
  let s1 :=
    match k.vk with
    | some v =>
        if v ≠ trigger_key ∧ s.recording = false ∧ (v = 49 ∨ v = 55) then
          start_recording s
        else s
    | none => s
  if k.special = true ∧ s1.recording = false then start_recording s1 else s1

/-- `on_release` from `monitor_keys`: for the trigger key (vk 63), the
first release with the toggle flag clear sets the flag and starts
recording; a release while recording with the flag set clears the flag and
stops.  Otherwise a release of Space/Command while recording stops, and
finally a special-key release while recording stops. -/
def on_release (k : KeyEvent) (s : AppState) : AppState :=
  let s1 :=
    match k.vk with
    | some v =>
        if v = trigger_key then
          if s.recording = false ∧ s.is_recording_with_key63 = false then
            start_recording { s with is_recording_with_key63 := true }
          else if s.recording = true ∧ s.is_recording_with_key63 = true then
            stop_recording { s with is_recording_with_key63 := false }
          else s
        else if s.recording = true ∧ (v = 49 ∨ v = 55) then
          stop_recording s
        else s
    | none => s
  if k.special = true ∧ s1.recording = true then stop_recording s1 else s1

/-- `insert_text`: pipe the text into `pbcopy` (overwriting the clipboard)
and simulate Cmd-V; `pasted` records each simulated paste. -/
def insert_text (text : String) (s : AppState) : AppState :=
  { s with clipboard := text, pasted := s.pasted ++ [text] }

/-- A file-system operation performed by `transcribe_audio` on the
temporary WAV file, identified by the fresh name that
`tempfile.NamedTemporaryFile` returned. -/
inductive FileOp
  | create (name : Nat)
  | write (name : Nat) (content : List Frame)
  | invoke (name : Nat)
  | delete (name : Nat)
deriving DecidableEq, Repr

/-- The transcription engine `self.model.transcribe`: returns the list of
segment texts, or raises (`Except.error`). -/
abbrev Engine := List Frame → Except String (List String)

/-- `text = ""` then `for segment in segments: text += segment.text`. -/
def concat_segments (segs : List String) : String :=
  segs.foldl (fun acc t => acc ++ t) ""

/-- `transcribe_audio`: with no frames, set title and the
`No audio recorded` status and return at once (no file is touched, the
engine is not invoked).  Otherwise create the temporary WAV file, write
all frames to it, invoke the engine on it, and — in the `finally` — delete
it.  On a nonempty result, inject the text and set the `Transcribed:`
status; on an empty result set `No speech detected`; on an engine error
set `Transcription error` and re-raise (the Boolean in the result is true
iff the exception propagates to the caller). -/
def transcribe_audio (engine : Engine) (fresh : Nat) (s : AppState) :
    AppState × List FileOp × Bool :=
  if s.frames = [] then
    ({ s with title := "🎙️", status_item := "Status: No audio recorded" },
     ([], false))
  else
    let ops := [FileOp.create fresh, FileOp.write fresh s.frames,
                FileOp.invoke fresh, FileOp.delete fresh]
    match engine s.frames with
    | Except.ok segs =>
        let text := concat_segments segs
        if text ≠ "" then
          let s1 := insert_text text s
          ({ s1 with status_item :=
                "Status: Transcribed: " ++ text.take 30 ++ "..." },
           (ops, false))
        else
          ({ s with status_item := "Status: No speech detected" },
           (ops, false))
    | Except.error _ =>
        ({ s with status_item := "Status: Transcription error" },
         (ops, true))

/-- `process_recording` (the worker `stop_recording` spawns): run
`transcribe_audio`, catch its exception and set the
`Error during transcription` status, and in the `finally` reset the title;
the worker then finishes (`transcribing := false`). -/
def process_recording (engine : Engine) (fresh : Nat) (s : AppState) :
    AppState × List FileOp :=
  let r := transcribe_audio engine fresh s
  let s1 :=
    if r.2.2 = true then
      { r.1 with status_item := "Status: Error during transcription" }
    else r.1
  ({ s1 with title := "🎙️", transcribing := false }, r.2.1)

/-- `record_audio` when `self.audio.open` raises (device unavailable): the
exception escapes the capture thread uncaught — the default thread
excepthook prints it — and no attribute of the app is changed. -/
def record_audio_device_fail (s : AppState) : AppState := s

/-- A recording start attempt when the microphone cannot be opened:
`start_recording` runs to completion, then the spawned `record_audio`
thread fails at `self.audio.open`. -/
def start_recording_device_unavailable (s : AppState) : AppState :=
  record_audio_device_fail (start_recording s)

/-- One full iteration of the `record_audio` loop body under a working
device: while `self.recording`, read one chunk and append it. -/
def capture_chunk (d : Frame) (s : AppState) : AppState :=
  if s.recording = true then { s with frames := s.frames ++ [d] } else s

/-- `handle_shutdown`: on SIGINT/SIGTERM, call `stop_recording` if
recording (which also spawns the transcription worker), terminate PyAudio,
and quit the application. -/
def handle_shutdown (s : AppState) : AppState :=
  let s1 := if s.recording = true then stop_recording s else s
  { s1 with audio_terminated := true, quit_called := true }

/-- The app state right after `__init__` (before `load_model` completes). -/
def initial_state : AppState :=
  { model_loaded := false,
    recording := false,
    transcribing := false,
    is_recording_with_key63 := false,
    frames := [],
    status_item := "Status: Ready",
    title := "🎙️",
    clipboard := "",
    pasted := [],
    audio_terminated := false,
    quit_called := false }

/-- `load_model` succeeding: the model handle is set, title and status
reset to ready. -/
def load_model_ok (s : AppState) : AppState :=
  { s with model_loaded := true, title := "🎙️", status_item := "Status: Ready" }

/-- The idle state once the model has loaded. -/
def ready_state : AppState := load_model_ok initial_state

/-- The Globe/Fn trigger key event: `vk = 63`, not in the special-key list. -/
def key63 : KeyEvent := { vk := some 63, special := false }

/-- The Space key event: `vk = 49`, also `Key.space` in the special list. -/
def key_space : KeyEvent := { vk := some 49, special := true }

/-!  Fine-grained interleaving of the `record_audio` capture loop with
`stop_recording`, for the claims about frame production around stop.  The
capture thread's position is a program counter: at the `while` test
(`loop`), between `stream.read` returning and the `append` (`got d`), or
exited with the stream closed (`done`). -/

/-- Program counter of the `record_audio` capture thread. -/
inductive CapPC
  | loop
  | got (d : Frame)
  | done
deriving DecidableEq, Repr

/-- Controller state together with the capture thread's position. -/
structure CapSys where
  ctrl : AppState
  cap : CapPC
deriving DecidableEq, Repr

/-- Capture step 1: at the `while self.recording` test, either block in
`stream.read` and come back with a chunk `d`, or leave the loop and close
the stream. -/
def cap_check (d : Frame) (y : CapSys) : CapSys :=
  match y.cap with
  | CapPC.loop =>
      if y.ctrl.recording = true then { y with cap := CapPC.got d }
      else { y with cap := CapPC.done }
  | _ => y

/-- Capture step 2: `self.frames.append(data)` for the chunk in hand, then
back to the `while` test. -/
def cap_append (y : CapSys) : CapSys :=
  match y.cap with
  | CapPC.got d =>
      { ctrl := { y.ctrl with frames := y.ctrl.frames ++ [d] },
        cap := CapPC.loop }
  | _ => y

/-- First statement of `stop_recording`: `self.recording = False`. -/
def ctrl_set_stop (y : CapSys) : CapSys :=
  { y with ctrl := { y.ctrl with recording := false } }

/-- The rest of `stop_recording` after `self.recording_thread.join()`: the
join returns only once the capture thread has exited (`cap = done`); until
then the caller blocks and nothing happens.  After the join the UI is
updated and the `process_recording` worker is spawned. -/
def ctrl_join_and_finish_stop (y : CapSys) : CapSys :=
  match y.cap with
  | CapPC.done =>
      { y with ctrl := { y.ctrl with
          title := "🎙️ (Transcribing)",
          status_item := "Status: Transcribing...",
          transcribing := true } }
  | _ => y

/-- A capture system at the start of a read, while Recording: the state
reached by one trigger release from the ready state, capture thread at the
`while` test. -/
def cap_race_start : CapSys :=
  { ctrl := on_release key63 ready_state, cap := CapPC.loop }

/-- A capture system whose capture thread has exited. -/
def cap_done_sys : CapSys :=
  { ctrl := ready_state, cap := CapPC.done }

/-! ## Theorems about the controller -/

/-- **C1, counterexample.**  A trigger event arriving while the controller
is Transcribing is not ignored: after one full toggle cycle the controller
is Transcribing, and a further release of the trigger key starts a new
recording while the transcription worker is still in flight — two sessions
overlap. -/
theorem C1_counterexample :
    (on_release key63 (on_release key63 ready_state)).phase =
        Phase.Transcribing ∧
      (on_release key63 (on_release key63 (on_release key63
        ready_state))).recording = true ∧
      (on_release key63 (on_release key63 (on_release key63
        ready_state))).transcribing = true := by
  decide

/-- **C1, amended.**  A start request while the controller is Recording is
ignored: any key press leaves the state unchanged, and no key release can
start a recording (releases can only stop, which leaves the frame buffer
unchanged).  Trigger events during Transcribing, however, are handled as
if Idle, so a new recording can overlap an in-flight transcription. -/
theorem C1_start_while_recording_ignored (k : KeyEvent) (s : AppState)
    (h : s.recording = true) :
    on_press k s = s ∧ (on_release k s).frames = s.frames := by
  constructor
  · unfold on_press
    cases hv : k.vk <;> simp [h]
  · unfold on_release
    cases hv : k.vk with
    | none =>
        simp [h, stop_recording]
        split_ifs <;> rfl
    | some v =>
        by_cases h63 : v = trigger_key <;>
          simp [h, h63, stop_recording] <;> split_ifs <;>
          simp [stop_recording]

/-- Witness for `C1_start_while_recording_ignored` at a concrete recording
state reached by one trigger release from the ready state. -/
theorem C1_start_while_recording_ignored_witness :
    (on_release key63 ready_state).recording = true ∧
      (on_press key_space (on_release key63 ready_state) =
          on_release key63 ready_state ∧
        (on_release key_space (on_release key63 ready_state)).frames =
          (on_release key63 ready_state).frames) :=
  ⟨by decide, C1_start_while_recording_ignored key_space
    (on_release key63 ready_state) (by decide)⟩

/-- **C2.**  From an Idle state with the model loaded and the toggle flag
clear, the first release of the trigger key moves the controller to
Recording and the second release to Transcribing, with the recording flag
clear — exactly one Recording-to-Transcribing cycle for two consecutive
releases. -/
theorem C2_toggle_cycle (s : AppState)
    (hphase : s.phase = Phase.Idle)
    (hload : s.model_loaded = true)
    (harm : s.is_recording_with_key63 = false) :
    (on_release key63 s).phase = Phase.Recording ∧
      (on_release key63 (on_release key63 s)).phase = Phase.Transcribing ∧
      (on_release key63 (on_release key63 s)).recording = false := by
  have hrec : s.recording = false := by
    cases hb : s.recording with
    | false => rfl
    | true => simp [AppState.phase, hb] at hphase
  simp [on_release, key63, trigger_key, start_recording, stop_recording,
        AppState.phase, hrec, harm, hload]

/-- Witness for `C2_toggle_cycle` at the ready state. -/
theorem C2_toggle_cycle_witness :
    ready_state.phase = Phase.Idle ∧ ready_state.model_loaded = true ∧
      ready_state.is_recording_with_key63 = false ∧
      ((on_release key63 ready_state).phase = Phase.Recording ∧
        (on_release key63 (on_release key63 ready_state)).phase =
          Phase.Transcribing ∧
        (on_release key63 (on_release key63 ready_state)).recording =
          false) :=
  ⟨by decide, by decide, by decide,
    C2_toggle_cycle ready_state (by decide) (by decide) (by decide)⟩

/-- **C3, counterexample.**  With the model not yet loaded, a single
release of the trigger key is rejected with the waiting status and the
controller is not recording — but the primary toggle's armed flag
`is_recording_with_key63` flips from false to true, so controller-owned
state IS modified by the rejected request. -/
theorem C3_counterexample :
    initial_state.is_recording_with_key63 = false ∧
      (on_release key63 initial_state).is_recording_with_key63 = true ∧
      (on_release key63 initial_state).status_item =
        "Status: Waiting for model to load" ∧
      (on_release key63 initial_state).recording = false := by
  decide

/-- **C3, amended.**  A start requested before the model has loaded is
rejected: the controller stays Idle, the status becomes
`Waiting for model to load`, and the frame buffer is untouched — but the
release handler sets the primary toggle's armed flag before calling
`start_recording`, and the rejection does not reset it. -/
theorem C3_model_not_ready (s : AppState)
    (hload : s.model_loaded = false)
    (hphase : s.phase = Phase.Idle)
    (harm : s.is_recording_with_key63 = false) :
    (on_release key63 s).phase = Phase.Idle ∧
      (on_release key63 s).status_item =
        "Status: Waiting for model to load" ∧
      (on_release key63 s).frames = s.frames ∧
      (on_release key63 s).recording = false ∧
      (on_release key63 s).is_recording_with_key63 = true := by
  have hrec : s.recording = false := by
    cases hb : s.recording with
    | false => rfl
    | true => simp [AppState.phase, hb] at hphase
  have htr : s.transcribing = false := by
    cases hb : s.transcribing with
    | false => rfl
    | true => simp [AppState.phase, hrec, hb] at hphase
  simp [on_release, key63, trigger_key, start_recording, AppState.phase,
        hrec, harm, hload, htr]

/-- Witness for `C3_model_not_ready` at the freshly initialised state. -/
theorem C3_model_not_ready_witness :
    initial_state.model_loaded = false ∧
      initial_state.phase = Phase.Idle ∧
      initial_state.is_recording_with_key63 = false ∧
      ((on_release key63 initial_state).phase = Phase.Idle ∧
        (on_release key63 initial_state).status_item =
          "Status: Waiting for model to load" ∧
        (on_release key63 initial_state).frames = initial_state.frames ∧
        (on_release key63 initial_state).recording = false ∧
        (on_release key63 initial_state).is_recording_with_key63 = true) :=
  ⟨by decide, by decide, by decide,
    C3_model_not_ready initial_state (by decide) (by decide) (by decide)⟩

/-- **C4, counterexample.**  With the model loaded and the device
unavailable, a start attempt still ends with the controller in Recording
and the `Recording...` status: `start_recording` sets the flags before the
capture thread ever tries to open the device, and the open failure changes
nothing.  The state does not remain Idle and no device-error status is
surfaced. -/
theorem C4_counterexample :
    (start_recording_device_unavailable ready_state).phase =
        Phase.Recording ∧
      (start_recording_device_unavailable ready_state).status_item =
        "Status: Recording..." := by
  decide

/-- **C4, amended.**  If the microphone cannot be opened, the controller
has already transitioned to Recording before the open is attempted: the
recording flag is set, the status reads `Recording...`, the frame buffer
is cleared, and the open failure — an uncaught exception in the capture
thread — surfaces no error status and does not return the state to Idle. -/
theorem C4_device_failure_still_enters_recording (s : AppState)
    (h : s.model_loaded = true) :
    (start_recording_device_unavailable s).recording = true ∧
      (start_recording_device_unavailable s).status_item =
        "Status: Recording..." ∧
      (start_recording_device_unavailable s).frames = [] := by
  simp [start_recording_device_unavailable, record_audio_device_fail,
        start_recording, h]

/-- Witness for `C4_device_failure_still_enters_recording` at the ready
state. -/
theorem C4_device_failure_still_enters_recording_witness :
    ready_state.model_loaded = true ∧
      ((start_recording_device_unavailable ready_state).recording = true ∧
        (start_recording_device_unavailable ready_state).status_item =
          "Status: Recording..." ∧
        (start_recording_device_unavailable ready_state).frames = []) :=
  ⟨by decide, C4_device_failure_still_enters_recording ready_state
    (by decide)⟩

/-- **C5, counterexample.**  Stopping with zero accumulated frames skips
the engine (no file operation happens), but the reported status is
`No audio recorded`, not `No speech detected` — the latter is reserved for
an engine run that returns empty text. -/
theorem C5_counterexample :
    (transcribe_audio (fun _ => Except.ok []) 0 ready_state).2.1 = [] ∧
      (transcribe_audio (fun _ => Except.ok []) 0
          ready_state).1.status_item = "Status: No audio recorded" ∧
      (transcribe_audio (fun _ => Except.ok []) 0
          ready_state).1.status_item ≠ "Status: No speech detected" := by
  decide

/-- **C5, amended.**  For every session stopping with zero accumulated
frames, the transcription engine is never invoked (no temporary file is
even created) and the reported status becomes `No audio recorded`. -/
theorem C5_empty_capture_skips_engine (engine : Engine) (fresh : Nat)
    (s : AppState) (h : s.frames = []) :
    (transcribe_audio engine fresh s).2.1 = [] ∧
      (transcribe_audio engine fresh s).1.status_item =
        "Status: No audio recorded" := by
  simp [transcribe_audio, h]

/-- Witness for `C5_empty_capture_skips_engine` at the ready state. -/
theorem C5_empty_capture_skips_engine_witness :
    ready_state.frames = [] ∧
      ((transcribe_audio (fun _ => Except.ok ["x"]) 3 ready_state).2.1 =
          [] ∧
        (transcribe_audio (fun _ => Except.ok ["x"]) 3
            ready_state).1.status_item = "Status: No audio recorded") :=
  ⟨by decide, C5_empty_capture_skips_engine (fun _ => Except.ok ["x"]) 3
    ready_state (by decide)⟩

/-- **C6, counterexample.**  A shutdown signal received while Recording
leaves the transcription worker in flight: `handle_shutdown` calls
`stop_recording`, which dispatches `process_recording` — a transcription
IS started during shutdown. -/
theorem C6_counterexample :
    (on_release key63 ready_state).recording = true ∧
      (handle_shutdown (on_release key63 ready_state)).transcribing =
        true := by
  decide

/-- **C6, amended.**  On an interrupt or termination signal while
Recording, the stop transition is performed synchronously, the audio
subsystem is terminated, and the process is allowed to exit — but the stop
transition dispatches a transcription worker, so a transcription is
started during shutdown. -/
theorem C6_shutdown_stops_but_dispatches_transcription (s : AppState)
    (h : s.recording = true) :
    (handle_shutdown s).recording = false ∧
      (handle_shutdown s).audio_terminated = true ∧
      (handle_shutdown s).quit_called = true ∧
      (handle_shutdown s).transcribing = true := by
  simp [handle_shutdown, stop_recording, h]

/-- Witness for `C6_shutdown_stops_but_dispatches_transcription` at a
concrete recording state. -/
theorem C6_shutdown_stops_but_dispatches_transcription_witness :
    (on_release key63 ready_state).recording = true ∧
      ((handle_shutdown (on_release key63 ready_state)).recording =
          false ∧
        (handle_shutdown (on_release key63
          ready_state)).audio_terminated = true ∧
        (handle_shutdown (on_release key63 ready_state)).quit_called =
          true ∧
        (handle_shutdown (on_release key63 ready_state)).transcribing =
          true) :=
  ⟨by decide, C6_shutdown_stops_but_dispatches_transcription
    (on_release key63 ready_state) (by decide)⟩

/-- **C7, counterexample.**  After a full cycle — start, capture one
chunk, stop, transcription worker finished (state back to Idle) — the
frame buffer still holds the captured audio: `process_recording` never
clears `frames`. -/
theorem C7_counterexample :
    (process_recording (fun _ => Except.ok ["hello"]) 0
        (on_release key63 (capture_chunk 7 (on_release key63
          ready_state)))).1.phase = Phase.Idle ∧
      (process_recording (fun _ => Except.ok ["hello"]) 0
        (on_release key63 (capture_chunk 7 (on_release key63
          ready_state)))).1.frames = [7] := by
  decide

/-- **C7, amended.**  The accumulated frames are NOT discarded when the
session's transcription completes or fails: `process_recording` leaves the
frame buffer exactly as it was, whatever the engine does; the captured
audio is discarded only when the next recording starts, since
`start_recording` resets the buffer to empty. -/
theorem C7_frames_survive_transcription (engine : Engine) (fresh : Nat)
    (s : AppState) (h : s.model_loaded = true) :
    (process_recording engine fresh s).1.frames = s.frames ∧
      (start_recording s).frames = [] := by
  constructor
  · unfold process_recording transcribe_audio
    by_cases hf : s.frames = []
    · simp [hf]
    · simp [hf]
      cases engine s.frames with
      | ok segs =>
          by_cases ht : concat_segments segs = "" <;>
            simp [ht, insert_text]
      | error e => simp
  · simp [start_recording, h]

/-- Witness for `C7_frames_survive_transcription` at a concrete state
holding one captured chunk. -/
theorem C7_frames_survive_transcription_witness :
    ({ ready_state with frames := [7] } : AppState).model_loaded = true ∧
      ((process_recording (fun _ => Except.error "boom") 2
          { ready_state with frames := [7] }).1.frames =
          ({ ready_state with frames := [7] } : AppState).frames ∧
        (start_recording { ready_state with frames := [7] }).frames =
          []) :=
  ⟨by decide, C7_frames_survive_transcription (fun _ => Except.error "boom")
    2 { ready_state with frames := [7] } (by decide)⟩

/-- **C8, counterexample.**  The capture loop CAN append a frame after the
controller's state has left Recording: with the capture thread holding a
chunk read while recording was still true, `stop_recording`'s first
statement clears the flag, and the pending `append` then runs — a frame is
appended while `recording = false`. -/
theorem C8_counterexample :
    (ctrl_set_stop (cap_check 5 cap_race_start)).ctrl.recording = false ∧
      (ctrl_set_stop (cap_check 5 cap_race_start)).ctrl.frames = [] ∧
      (cap_append (ctrl_set_stop
        (cap_check 5 cap_race_start))).ctrl.frames = [5] := by
  decide

/-- **C8, amended.**  Once the capture thread has exited — the condition
under which the join in `stop_recording` returns — no capture step can
produce or append a frame: after `stop_recording` returns to its caller
the frame buffer is final.  (Before the join, one chunk read while the
recording flag was still set may be appended after the flag clears.) -/
theorem C8_no_frames_after_join (y : CapSys) (d : Frame)
    (h : y.cap = CapPC.done) :
    (cap_check d y).ctrl.frames = y.ctrl.frames ∧
      (cap_append y).ctrl.frames = y.ctrl.frames ∧
      (cap_check d y).cap = CapPC.done ∧
      (cap_append y).cap = CapPC.done := by
  obtain ⟨c, p⟩ := y
  simp only at h
  subst h
  simp [cap_check, cap_append]

/-- Witness for `C8_no_frames_after_join` at a concrete exited capture
system. -/
theorem C8_no_frames_after_join_witness :
    cap_done_sys.cap = CapPC.done ∧
      ((cap_check 9 cap_done_sys).ctrl.frames = cap_done_sys.ctrl.frames ∧
        (cap_append cap_done_sys).ctrl.frames =
          cap_done_sys.ctrl.frames ∧
        (cap_check 9 cap_done_sys).cap = CapPC.done ∧
        (cap_append cap_done_sys).cap = CapPC.done) :=
  ⟨by decide, C8_no_frames_after_join cap_done_sys 9 (by decide)⟩

/-- **C9.**  For every transcription attempt on a non-empty capture, the
file-operation trace is exactly: create the temporary file under its fresh
name, write the full frame sequence to it, invoke the engine on it, delete
it — the same trace whether the engine succeeds, returns empty text, or
raises, so the write fully precedes the invocation and the deletion is
unconditional. -/
theorem C9_temp_file_discipline (engine : Engine) (fresh : Nat)
    (s : AppState) (h : s.frames ≠ []) :
    (transcribe_audio engine fresh s).2.1 =
      [FileOp.create fresh, FileOp.write fresh s.frames,
       FileOp.invoke fresh, FileOp.delete fresh] := by
  unfold transcribe_audio
  simp [h]
  cases engine s.frames with
  | ok segs =>
      by_cases ht : concat_segments segs = "" <;> simp [ht, insert_text]
  | error e => simp

/-- Witness for `C9_temp_file_discipline` on a failing engine, showing the
file is deleted even when the engine raises. -/
theorem C9_temp_file_discipline_witness :
    ({ ready_state with frames := [1] } : AppState).frames ≠ [] ∧
      (transcribe_audio (fun _ => Except.error "boom") 0
          { ready_state with frames := [1] }).2.1 =
        [FileOp.create 0,
         FileOp.write 0 ({ ready_state with frames := [1] } :
           AppState).frames,
         FileOp.invoke 0, FileOp.delete 0] :=
  ⟨by decide, C9_temp_file_discipline (fun _ => Except.error "boom") 0
    { ready_state with frames := [1] } (by decide)⟩

/-- **C10.**  For every non-empty text, `insert_text` overwrites the
clipboard with that text and, when it returns, the clipboard still holds
the injected text — the previous contents are not restored; the simulated
paste is recorded. -/
theorem C10_inject_overwrites_clipboard (text : String) (s : AppState)
    (_h : text ≠ "") :
    (insert_text text s).clipboard = text ∧
      (insert_text text s).pasted = s.pasted ++ [text] :=
  ⟨rfl, rfl⟩

/-- Witness for `C10_inject_overwrites_clipboard`: injecting over a
previously filled clipboard. -/
theorem C10_inject_overwrites_clipboard_witness :
    ("hello" : String) ≠ "" ∧
      ((insert_text "hello"
          { ready_state with clipboard := "old" }).clipboard = "hello" ∧
        (insert_text "hello"
            { ready_state with clipboard := "old" }).pasted =
          ({ ready_state with clipboard := "old" } : AppState).pasted ++
            ["hello"]) :=
  ⟨by decide, C10_inject_overwrites_clipboard "hello"
    { ready_state with clipboard := "old" } (by decide)⟩

end WhisperDictation
